import Mathlib

/-!
Verification of the FellowFlow registration/payment core against its
natural-language specification.

The development shallowly embeds the TypeScript source:
* the pricing engine and group aggregator from src/lib/pricing/engine.ts
  (the current version: infant-free rule, partial-motel-free rule,
  surcharge tiers, group surcharge applied once);
* the Stripe webhook reconciliation handler from
  src/app/api/webhooks/stripe/route.ts (group-aware version);
* the pricing-recomputation inputs and the group gate of
  src/app/api/payment/create-session/route.ts.

Modelling conventions: ISO date strings become calendar dates (year,
month, day) ordered lexicographically; JavaScript numbers used for money
become rationals; undefined/null optional fields become Option; the
wall clock (new Date()) becomes an explicit parameter; the audit string
explanationDetail and the outbound email contents are not modelled (no
claim refers to them) — only the count of attempted emails is kept.
-/

namespace FellowFlow

/-- Calendar date: the embedding of the ISO date strings the source parses
with parseISO.  Chronological order on valid dates is lexicographic. -/
structure SimpleDate where
  year : Int
  month : Nat
  day : Nat
deriving DecidableEq

/-- Chronological (lexicographic) order on dates. -/
def SimpleDate.ble (a b : SimpleDate) : Bool :=
  a.year < b.year ||
    (a.year == b.year &&
      (a.month < b.month || (a.month == b.month && a.day ≤ b.day)))

/-- True when the month/day of `a` falls strictly before the month/day of `b`
(years ignored): the anniversary adjustment used by differenceInYears. -/
def SimpleDate.monthDayBefore (a b : SimpleDate) : Bool :=
  a.month < b.month || (a.month == b.month && a.day < b.day)

/-- Full calendar years from `earlier` to `later` (chronological order
assumed): the year difference, minus one when the anniversary inside the
later year has not yet been reached. -/
def fullYearsBetween (earlier later : SimpleDate) : Int :=
  later.year - earlier.year -
    (if SimpleDate.monthDayBefore later earlier then 1 else 0)

/-- date-fns differenceInYears(left, right): the signed number of full
calendar years from `right` to `left`, truncated toward zero. -/
def differenceInYears (left right : SimpleDate) : Int :=
  if SimpleDate.ble right left then fullYearsBetween right left
  else - fullYearsBetween left right

/-- date-fns isWithinInterval: start ≤ d ≤ stop, both bounds inclusive. -/
def isWithinInterval (d start stop : SimpleDate) : Bool :=
  SimpleDate.ble start d && SimpleDate.ble d stop

/-- Age category, type AgeCategory of the source. -/
inductive AgeCategory
  | adult
  | youth
  | child
deriving DecidableEq

/-- Pricing explanation codes (ExplanationCode), including the legacy
FULL_MOTEL_FREE kept only so that old records stay decodable. -/
inductive ExplanationCode
  | FREE_INFANT
  | FULL_ADULT
  | FULL_YOUTH
  | FULL_CHILD
  | PARTIAL_MOTEL_FREE
  | PARTIAL_ADULT
  | PARTIAL_YOUTH
  | PARTIAL_CHILD
  | FULL_MOTEL_FREE
deriving DecidableEq

/-- A late-registration surcharge tier: a date interval, a flat amount, a
label.  The source's parseISO try/catch skips malformed date strings; the
embedding carries already-parsed dates, so every tier is well formed. -/
structure SurchargeTier where
  start_date : SimpleDate
  end_date : SimpleDate
  amount : Rat
  label : String
deriving DecidableEq

/-- Event row, restricted to the fields the pricing engine reads. -/
structure Event where
  start_date : SimpleDate
  duration_days : Nat
  adult_age_threshold : Int
  youth_age_threshold : Int
  infant_age_threshold : Option Int
deriving DecidableEq

/-- PricingConfig row: six price points, the motel-free flag, and the
ordered surcharge tier list (nullable in the schema). -/
structure PricingConfig where
  adult_full_price : Rat
  youth_full_price : Rat
  child_full_price : Rat
  adult_daily_price : Rat
  youth_daily_price : Rat
  child_daily_price : Rat
  motel_stay_free : Bool
  late_surcharge_tiers : Option (List SurchargeTier)
deriving DecidableEq

/-- PricingInput of the engine: optional fields are undefined-able in the
source.  registrationDate overrides the clock for surcharge lookup. -/
structure PricingInput where
  dateOfBirth : SimpleDate
  isFullDuration : Bool
  isStayingInMotel : Option Bool
  numDays : Option Nat
  registrationDate : Option SimpleDate
deriving DecidableEq

/-- PricingResult of the engine; the audit string explanationDetail is not
modelled. -/
structure PricingResult where
  category : AgeCategory
  ageAtEvent : Int
  amount : Rat
  baseAmount : Rat
  surcharge : Rat
  surchargeLabel : Option String
  explanationCode : ExplanationCode
deriving DecidableEq

/-- computeAge: differenceInYears(event start, date of birth). -/
def computeAge (dateOfBirth eventStartDate : SimpleDate) : Int :=
  differenceInYears eventStartDate dateOfBirth

/-- deriveCategory: adult at or above the adult threshold, else youth at or
above the youth threshold, else child. -/
def deriveCategory (age adultThreshold youthThreshold : Int) : AgeCategory :=
  if age ≥ adultThreshold then AgeCategory.adult
  else if age ≥ youthThreshold then AgeCategory.youth
  else AgeCategory.child

/-- findSurchargeTier: the first tier whose inclusive interval contains the
registration date, in list order. -/
def findSurchargeTier (tiers : List SurchargeTier) (registrationDate : SimpleDate) :
    Option SurchargeTier :=
  tiers.find? (fun t => isWithinInterval registrationDate t.start_date t.end_date)

/-- The priceMap of the full-duration branch: full price and code per
category. -/
def fullPriceFor (pricing : PricingConfig) : AgeCategory → Rat × ExplanationCode
  | AgeCategory.adult => (pricing.adult_full_price, ExplanationCode.FULL_ADULT)
  | AgeCategory.youth => (pricing.youth_full_price, ExplanationCode.FULL_YOUTH)
  | AgeCategory.child => (pricing.child_full_price, ExplanationCode.FULL_CHILD)

/-- The dailyMap of the partial-duration branch: daily rate and code per
category. -/
def dailyRateFor (pricing : PricingConfig) : AgeCategory → Rat × ExplanationCode
  | AgeCategory.adult => (pricing.adult_daily_price, ExplanationCode.PARTIAL_ADULT)
  | AgeCategory.youth => (pricing.youth_daily_price, ExplanationCode.PARTIAL_YOUTH)
  | AgeCategory.child => (pricing.child_daily_price, ExplanationCode.PARTIAL_CHILD)

/-- applySurcharge: look up the registration date (the input's override,
else the clock `now`) in the tier list and add the matching tier's amount
to the base. -/
def applySurcharge (now : SimpleDate) (baseAmount : Rat) (code : ExplanationCode)
    (category : AgeCategory) (ageAtEvent : Int) (pricing : PricingConfig)
    (input : PricingInput) : PricingResult :=
  let regDate := input.registrationDate.getD now
  let tier := findSurchargeTier (pricing.late_surcharge_tiers.getD []) regDate
  let surcharge : Rat :=
    match tier with
    | some t => t.amount
    | none => 0
  { category := category
    ageAtEvent := ageAtEvent
    amount := baseAmount + surcharge
    baseAmount := baseAmount
    surcharge := surcharge
    surchargeLabel := tier.map SurchargeTier.label
    explanationCode := code }

/-- computePricing, the engine: infant-free check first, then the
full-duration branch, then the partial-motel-free short circuit, then
daily rate times day count (day count defaulting to 1 when absent); the
two free branches and the infant branch skip the surcharge. -/
def computePricing (now : SimpleDate) (input : PricingInput) (event : Event)
    (pricing : PricingConfig) : PricingResult :=
  let ageAtEvent := computeAge input.dateOfBirth event.start_date
  let category := deriveCategory ageAtEvent event.adult_age_threshold event.youth_age_threshold
  let infantThreshold := event.infant_age_threshold.getD 3
  if ageAtEvent ≤ infantThreshold then
    { category := AgeCategory.child
      ageAtEvent := ageAtEvent
      amount := 0
      baseAmount := 0
      surcharge := 0
      surchargeLabel := none
      explanationCode := ExplanationCode.FREE_INFANT }
  else if input.isFullDuration then
    let entry := fullPriceFor pricing category
    applySurcharge now entry.1 entry.2 category ageAtEvent pricing input
  else if input.isStayingInMotel.getD false && pricing.motel_stay_free then
    { category := category
      ageAtEvent := ageAtEvent
      amount := 0
      baseAmount := 0
      surcharge := 0
      surchargeLabel := none
      explanationCode := ExplanationCode.PARTIAL_MOTEL_FREE }
  else
    let numDays := input.numDays.getD 1
    let entry := dailyRateFor pricing category
    applySurcharge now (entry.1 * (numDays : Rat)) entry.2 category ageAtEvent pricing input

/-- GroupPricingResult of the aggregator. -/
structure GroupPricingResult where
  items : List PricingResult
  subtotal : Rat
  surcharge : Rat
  surchargeLabel : Option String
  grandTotal : Rat
deriving DecidableEq

/-- The per-item rewrite inside computeGroupPricing's map: keep only the
base amount, drop the individual surcharge and its label. -/
def stripSurcharge (result : PricingResult) : PricingResult :=
  { result with amount := result.baseAmount, surcharge := 0, surchargeLabel := none }

/-- computeGroupPricing: price each registrant individually, strip each
individual surcharge, sum the bases into the subtotal, then apply one
surcharge on the whole subtotal (only when it is positive), keyed on the
first registrant's registration-date override, else the clock. -/
def computeGroupPricing (now : SimpleDate) (inputs : List PricingInput) (event : Event)
    (pricing : PricingConfig) : GroupPricingResult :=
  let items := inputs.map (fun input => stripSurcharge (computePricing now input event pricing))
  let subtotal := items.foldl (fun sum item => sum + item.amount) 0
  let regDate :=
    match inputs.head? with
    | some first => first.registrationDate.getD now
    | none => now
  let tier := findSurchargeTier (pricing.late_surcharge_tiers.getD []) regDate
  let surcharge : Rat :=
    if 0 < subtotal then
      match tier with
      | some t => t.amount
      | none => 0
    else 0
  { items := items
    subtotal := subtotal
    surcharge := surcharge
    surchargeLabel := tier.map SurchargeTier.label
    grandTotal := subtotal + surcharge }

/-- Payment status values of the payments table. -/
inductive PayStatus
  | pending
  | completed
  | failed
  | refunded
  | expired
deriving DecidableEq

/-- Registration status values of the registrations table. -/
inductive RegStatus
  | pending
  | confirmed
  | cancelled
  | refunded
deriving DecidableEq

/-- A payments row, restricted to the columns the webhook handler and the
session-initiation service read or write. -/
structure PaymentRow where
  id : String
  registration_id : String
  stripe_session_id : String
  stripe_payment_intent_id : Option String
  stripe_event_id : Option String
  amount : Rat
  status : PayStatus
  webhook_received_at : Option SimpleDate
deriving DecidableEq

/-- A registrations row, restricted to the columns the payment flow reads
or writes. -/
structure RegistrationRow where
  id : String
  group_id : Option String
  event_id : String
  date_of_birth : SimpleDate
  is_full_duration : Bool
  is_staying_in_motel : Option Bool
  num_days : Option Nat
  computed_amount : Rat
  status : RegStatus
  confirmed_at : Option SimpleDate
  created_at : SimpleDate
deriving DecidableEq

/-- The two mutable tables the payment flow shares. -/
structure DB where
  payments : List PaymentRow
  registrations : List RegistrationRow
deriving DecidableEq

/-- The payload shapes the webhook handler distinguishes: a completed
checkout session (with the metadata it reads), an expired one, or any
other event type (ignored). -/
inductive StripeEventData
  | checkoutCompleted (sessionId : String) (registration_id : Option String)
      (group_id : Option String) (payment_intent : String)
  | checkoutExpired (sessionId : String)
  | otherEvent (eventType : String)
deriving DecidableEq

/-- A verified Stripe event: the globally unique provider event id plus the
payload. -/
structure StripeEvent where
  id : String
  data : StripeEventData
deriving DecidableEq

/-- The JSON responses the webhook route returns. -/
inductive WebhookResponse
  | received (duplicate : Bool)
  | errNoSignature
  | errInvalidSignature
  | errNoSecret
deriving DecidableEq

/-- HTTP status of each webhook response. -/
def WebhookResponse.statusCode : WebhookResponse → Nat
  | WebhookResponse.received _ => 200
  | WebhookResponse.errNoSignature => 400
  | WebhookResponse.errInvalidSignature => 400
  | WebhookResponse.errNoSecret => 500

/-- Result of one webhook delivery: the database afterwards, the HTTP
response, and how many outbound notification emails were attempted
(emails are fire-and-forget; only the attempt count matters here). -/
structure WebhookOutcome where
  db : DB
  response : WebhookResponse
  emailsAttempted : Nat
deriving DecidableEq

/-- Environment of the webhook route. -/
structure WebhookEnv where
  stripe_webhook_secret : Option String
  node_env : String
  allow_insecure_webhooks : Option String
deriving DecidableEq

/-- isLocalDev of the route: the compound opt-in for the signature bypass,
NODE_ENV development AND ALLOW_INSECURE_WEBHOOKS literally true. -/
def isLocalDev (env : WebhookEnv) : Bool :=
  env.node_env == "development" && env.allow_insecure_webhooks == some "true"

/-- Idempotency gate query: some payment row already records this provider
event id. -/
def eventAlreadyProcessed (db : DB) (eventId : String) : Bool :=
  db.payments.any (fun p => decide (p.stripe_event_id = some eventId))

/-- The guarded completed-update on payments: rows matching the session id
AND still pending get the payment intent, the event id, status completed
and the delivery timestamp; every other row is untouched. -/
def markPaymentCompleted (payments : List PaymentRow) (sessionId eventId paymentIntent : String)
    (now : SimpleDate) : List PaymentRow :=
  payments.map (fun p =>
    if p.stripe_session_id = sessionId ∧ p.status = PayStatus.pending then
      { p with
        stripe_payment_intent_id := some paymentIntent
        stripe_event_id := some eventId
        status := PayStatus.completed
        webhook_received_at := some now }
    else p)

/-- Number of rows the guarded completed-update matched (the length of the
select("id") result the route checks). -/
def pendingMatchCount (payments : List PaymentRow) (sessionId : String) : Nat :=
  (payments.filter
    (fun p => decide (p.stripe_session_id = sessionId ∧ p.status = PayStatus.pending))).length

/-- The guarded expired-update on payments: session id AND still pending. -/
def markPaymentExpired (payments : List PaymentRow) (sessionId eventId : String)
    (now : SimpleDate) : List PaymentRow :=
  payments.map (fun p =>
    if p.stripe_session_id = sessionId ∧ p.status = PayStatus.pending then
      { p with
        stripe_event_id := some eventId
        status := PayStatus.expired
        webhook_received_at := some now }
    else p)

/-- Solo confirmation: the guarded update of one registration from pending
to confirmed. -/
def confirmRegistrationById (registrations : List RegistrationRow) (registrationId : String)
    (now : SimpleDate) : List RegistrationRow :=
  registrations.map (fun r =>
    if r.id = registrationId ∧ r.status = RegStatus.pending then
      { r with status := RegStatus.confirmed, confirmed_at := some now }
    else r)

/-- Group confirmation: the guarded update of every registration of the
group from pending to confirmed, in one operation. -/
def confirmRegistrationsByGroup (registrations : List RegistrationRow) (groupId : String)
    (now : SimpleDate) : List RegistrationRow :=
  registrations.map (fun r =>
    if r.group_id = some groupId ∧ r.status = RegStatus.pending then
      { r with status := RegStatus.confirmed, confirmed_at := some now }
    else r)

/-- The webhook processing stage (after signature verification), from the
route's POST: the idempotency gate, then per event type the guarded
transitions described in the spec.  Every path acknowledges with 200. -/
def processEvent (db : DB) (event : StripeEvent) (now : SimpleDate) : WebhookOutcome :=
  if eventAlreadyProcessed db event.id then
    { db := db, response := WebhookResponse.received true, emailsAttempted := 0 }
  else
    match event.data with
    | StripeEventData.checkoutCompleted sessionId registrationId? groupId? paymentIntent =>
      match registrationId? with
      | none => { db := db, response := WebhookResponse.received false, emailsAttempted := 0 }
      | some registrationId =>
        match db.payments.find? (fun p => decide (p.stripe_session_id = sessionId)) with
        | none => { db := db, response := WebhookResponse.received false, emailsAttempted := 0 }
        | some payment =>
          if payment.status = PayStatus.completed then
            { db := db, response := WebhookResponse.received false, emailsAttempted := 0 }
          else
            let updatedCount := pendingMatchCount db.payments sessionId
            let payments := markPaymentCompleted db.payments sessionId event.id paymentIntent now
            if updatedCount = 0 then
              { db := { db with payments := payments }
                response := WebhookResponse.received false
                emailsAttempted := 0 }
            else
              match groupId? with
              | some groupId =>
                let registrations := confirmRegistrationsByGroup db.registrations groupId now
                let groupRows := registrations.filter (fun r => decide (r.group_id = some groupId))
                { db := { payments := payments, registrations := registrations }
                  response := WebhookResponse.received false
                  emailsAttempted := if groupRows.isEmpty then 0 else 1 }
              | none =>
                let registrations := confirmRegistrationById db.registrations registrationId now
                { db := { payments := payments, registrations := registrations }
                  response := WebhookResponse.received false
                  emailsAttempted :=
                    if registrations.any (fun r => decide (r.id = registrationId)) then 1 else 0 }
    | StripeEventData.checkoutExpired sessionId =>
      { db := { db with payments := markPaymentExpired db.payments sessionId event.id now }
        response := WebhookResponse.received false
        emailsAttempted := 0 }
    | StripeEventData.otherEvent _ =>
      { db := db, response := WebhookResponse.received false, emailsAttempted := 0 }

/-- The whole webhook route: missing signature header is a 400; with a
configured secret the event only proceeds when verification succeeded
(else 400); with no secret the event proceeds only under the compound
local-development opt-in, and otherwise the request is a 500.
`signatureValid` stands for the outcome of constructEvent's cryptographic
check, which is not modelled. -/
def handleWebhook (env : WebhookEnv) (signature : Option String) (signatureValid : Bool)
    (event : StripeEvent) (db : DB) (now : SimpleDate) : WebhookOutcome :=
  match signature with
  | none => { db := db, response := WebhookResponse.errNoSignature, emailsAttempted := 0 }
  | some _ =>
    match env.stripe_webhook_secret with
    | some _ =>
      if signatureValid then processEvent db event now
      else { db := db, response := WebhookResponse.errInvalidSignature, emailsAttempted := 0 }
    | none =>
      if isLocalDev env then processEvent db event now
      else { db := db, response := WebhookResponse.errNoSecret, emailsAttempted := 0 }

/-- The pricing input handleSoloPayment builds for its server-side
recomputation: the stored registrant attributes, with the registration
date override set to serverRegistrationDate, which the route assigns
new Date().toISOString() — the current server time. -/
def soloRecomputeInput (registration : RegistrationRow) (serverRegistrationDate : SimpleDate) :
    PricingInput :=
  { dateOfBirth := registration.date_of_birth
    isFullDuration := registration.is_full_duration
    isStayingInMotel := registration.is_staying_in_motel
    numDays := registration.num_days
    registrationDate := some serverRegistrationDate }

/-- The pricing inputs handleGroupPayment builds for its server-side group
recomputation: one per fetched registration, each with the same
serverRegistrationDate (the current server time) as override. -/
def groupRecomputeInputs (registrations : List RegistrationRow)
    (serverRegistrationDate : SimpleDate) : List PricingInput :=
  registrations.map (fun r =>
    { dateOfBirth := r.date_of_birth
      isFullDuration := r.is_full_duration
      isStayingInMotel := r.is_staying_in_motel
      numDays := r.num_days
      registrationDate := some serverRegistrationDate })

/-- Outcome of handleGroupPayment's opening checks, before any pricing or
checkout-session work. -/
inductive GroupPaymentOutcome
  | notFound
  | alreadyConfirmed
  | proceed (fetched : List RegistrationRow)
deriving DecidableEq

/-- The opening of handleGroupPayment: fetch the registrations of the group
with status pending, 404 when none, then the some(status confirmed) check,
then proceed with the fetched rows. -/
def groupPaymentGate (registrations : List RegistrationRow) (groupId : String) :
    GroupPaymentOutcome :=
  let fetched := registrations.filter
    (fun r => decide (r.group_id = some groupId ∧ r.status = RegStatus.pending))
  if fetched.length = 0 then GroupPaymentOutcome.notFound
  else if fetched.any (fun r => decide (r.status = RegStatus.confirmed)) then
    GroupPaymentOutcome.alreadyConfirmed
  else GroupPaymentOutcome.proceed fetched

/-! Shared sample data, used by the witness theorems: the example event and
configuration of the specification's testable-properties section (adult
full 100, daily 30, duration 5, infant threshold 3, motel-free on, one
June late-fee tier of 20). -/

/-- Sample surcharge tier: June 2026, amount 20. -/
def lateFeeTier : SurchargeTier :=
  { start_date := ⟨2026, 6, 1⟩, end_date := ⟨2026, 6, 30⟩, amount := 20, label := "Late Fee" }

/-- Sample event starting 2026-07-10. -/
def sampleEvent : Event :=
  { start_date := ⟨2026, 7, 10⟩, duration_days := 5, adult_age_threshold := 18,
    youth_age_threshold := 12, infant_age_threshold := some 3 }

/-- Sample pricing configuration. -/
def samplePricing : PricingConfig :=
  { adult_full_price := 100, youth_full_price := 80, child_full_price := 50,
    adult_daily_price := 30, youth_daily_price := 25, child_daily_price := 15,
    motel_stay_free := true, late_surcharge_tiers := some [lateFeeTier] }

/-- A registration date inside the June tier. -/
def juneDate : SimpleDate := ⟨2026, 6, 15⟩

/-- Adult, full duration, registered inside the late-fee window. -/
def adultFullInput : PricingInput :=
  { dateOfBirth := ⟨1990, 1, 1⟩, isFullDuration := true, isStayingInMotel := none,
    numDays := none, registrationDate := some juneDate }

/-- Child (8 at the event), partial, staying in the motel. -/
def childMotelInput : PricingInput :=
  { dateOfBirth := ⟨2018, 1, 1⟩, isFullDuration := false, isStayingInMotel := some true,
    numDays := none, registrationDate := some juneDate }

/-- Two-year-old at the event, every paid flag set. -/
def infantInput : PricingInput :=
  { dateOfBirth := ⟨2024, 5, 1⟩, isFullDuration := true, isStayingInMotel := some true,
    numDays := some 3, registrationDate := some juneDate }

/-- Adult, partial, no motel, day count left out. -/
def adultPartialNoDays : PricingInput :=
  { dateOfBirth := ⟨1990, 1, 1⟩, isFullDuration := false, isStayingInMotel := none,
    numDays := none, registrationDate := some juneDate }

/-- The code attached by applySurcharge is the one passed in. -/
theorem applySurcharge_code (now : SimpleDate) (b : Rat) (code : ExplanationCode)
    (c : AgeCategory) (a : Int) (pricing : PricingConfig) (input : PricingInput) :
    (applySurcharge now b code c a pricing input).explanationCode = code := by
  simp [applySurcharge]

/-- No full-price map entry carries the legacy motel-free code. -/
theorem fullPriceFor_code_ne (pricing : PricingConfig) (c : AgeCategory) :
    (fullPriceFor pricing c).2 ≠ ExplanationCode.FULL_MOTEL_FREE := by
  cases c <;> simp [fullPriceFor]

/-- No daily-rate map entry carries the legacy motel-free code. -/
theorem dailyRateFor_code_ne (pricing : PricingConfig) (c : AgeCategory) :
    (dailyRateFor pricing c).2 ≠ ExplanationCode.FULL_MOTEL_FREE := by
  cases c <;> simp [dailyRateFor]

/-- C4.  A registrant whose age at the event (floored whole years from date
of birth to event start) is at or below the infant threshold (3 when the
event leaves it unset) is priced at 0 with no surcharge and code
FREE_INFANT, whatever the duration, motel and day-count flags say: the
infant check precedes every other pricing rule. -/
theorem infant_free_precedence (now : SimpleDate) (input : PricingInput) (event : Event)
    (pricing : PricingConfig)
    (h : computeAge input.dateOfBirth event.start_date ≤ event.infant_age_threshold.getD 3) :
    (computePricing now input event pricing).amount = 0
    ∧ (computePricing now input event pricing).surcharge = 0
    ∧ (computePricing now input event pricing).explanationCode = ExplanationCode.FREE_INFANT := by
  simp [computePricing, h]

/-- Witness for C4: the two-year-old of the sample event is free even with
full duration, motel flag and day count set, inside the late-fee window. -/
theorem infant_free_precedence_witness :
    (computePricing juneDate infantInput sampleEvent samplePricing).amount = 0
    ∧ (computePricing juneDate infantInput sampleEvent samplePricing).surcharge = 0
    ∧ (computePricing juneDate infantInput sampleEvent samplePricing).explanationCode
        = ExplanationCode.FREE_INFANT :=
  infant_free_precedence juneDate infantInput sampleEvent samplePricing (by decide)

/-- C7.  A partial-duration registrant above the infant threshold who stays
in the motel, under a configuration with the motel-free rule on, pays
exactly 0 with code PARTIAL_MOTEL_FREE and no surcharge — the free branch
short-circuits before the surcharge step, whatever the tier list holds. -/
theorem partial_motel_free_no_surcharge (now : SimpleDate) (input : PricingInput)
    (event : Event) (pricing : PricingConfig)
    (hage : ¬ computeAge input.dateOfBirth event.start_date ≤ event.infant_age_threshold.getD 3)
    (hfull : input.isFullDuration = false)
    (hmotel : input.isStayingInMotel = some true)
    (hconf : pricing.motel_stay_free = true) :
    (computePricing now input event pricing).amount = 0
    ∧ (computePricing now input event pricing).surcharge = 0
    ∧ (computePricing now input event pricing).explanationCode
        = ExplanationCode.PARTIAL_MOTEL_FREE := by
  simp [computePricing, hage, hfull, hmotel, hconf]

/-- Witness for C7: the partial-motel child, registered inside the June
tier window, still pays 0 with no surcharge. -/
theorem partial_motel_free_no_surcharge_witness :
    (computePricing juneDate childMotelInput sampleEvent samplePricing).amount = 0
    ∧ (computePricing juneDate childMotelInput sampleEvent samplePricing).surcharge = 0
    ∧ (computePricing juneDate childMotelInput sampleEvent samplePricing).explanationCode
        = ExplanationCode.PARTIAL_MOTEL_FREE :=
  partial_motel_free_no_surcharge juneDate childMotelInput sampleEvent samplePricing
    (by decide) (by decide) (by decide) (by decide)

/-- C8.  Two full-duration inputs that differ only in the motel flag price
identically — the flag is never read on the full-duration path — and no
run of the current engine ever returns the legacy code FULL_MOTEL_FREE. -/
theorem full_duration_motel_irrelevant (now : SimpleDate) (event : Event)
    (pricing : PricingConfig) (input : PricingInput) (m1 m2 : Option Bool)
    (hfull : input.isFullDuration = true) :
    (computePricing now { input with isStayingInMotel := m1 } event pricing).amount
      = (computePricing now { input with isStayingInMotel := m2 } event pricing).amount
    ∧ ∀ j : PricingInput,
        (computePricing now j event pricing).explanationCode ≠ ExplanationCode.FULL_MOTEL_FREE := by
  constructor
  · simp [computePricing, applySurcharge, hfull]
  · intro j
    simp only [computePricing]
    split
    · simp
    · split
      · rw [applySurcharge_code]
        exact fullPriceFor_code_ne pricing _
      · split
        · simp
        · rw [applySurcharge_code]
          exact dailyRateFor_code_ne pricing _

/-- Witness for C8: the sample adult full-duration input priced with and
without the motel flag gives the same amount. -/
theorem full_duration_motel_irrelevant_witness :
    (computePricing juneDate { adultFullInput with isStayingInMotel := some true }
        sampleEvent samplePricing).amount
      = (computePricing juneDate { adultFullInput with isStayingInMotel := none }
        sampleEvent samplePricing).amount :=
  (full_duration_motel_irrelevant juneDate sampleEvent samplePricing adultFullInput
    (some true) none (by decide)).1

/-- C10.  On the partial-duration path (above the infant threshold, not in
the motel-free branch), an absent day count is silently defaulted to 1:
the engine returns the category's daily rate times one, plus whatever
surcharge applies, and raises no error (the embedding is a total
function, as the source function is over well-typed inputs). -/
theorem numDays_defaults_to_one (now : SimpleDate) (input : PricingInput) (event : Event)
    (pricing : PricingConfig)
    (hage : ¬ computeAge input.dateOfBirth event.start_date ≤ event.infant_age_threshold.getD 3)
    (hfull : input.isFullDuration = false)
    (hmotel : (input.isStayingInMotel.getD false && pricing.motel_stay_free) = false)
    (hdays : input.numDays = none) :
    (computePricing now input event pricing).baseAmount
      = (dailyRateFor pricing (deriveCategory (computeAge input.dateOfBirth event.start_date)
          event.adult_age_threshold event.youth_age_threshold)).1 * 1
    ∧ (computePricing now input event pricing).amount
      = (computePricing now input event pricing).baseAmount
        + (computePricing now input event pricing).surcharge
    ∧ (computePricing now input event pricing).explanationCode
      = (dailyRateFor pricing (deriveCategory (computeAge input.dateOfBirth event.start_date)
          event.adult_age_threshold event.youth_age_threshold)).2 := by
  simp [computePricing, applySurcharge, hage, hfull, hmotel, hdays]

/-- Witness for C10: the adult partial input without a day count is charged
one day at the adult daily rate (30) plus the June surcharge (20). -/
theorem numDays_defaults_to_one_witness :
    (computePricing juneDate adultPartialNoDays sampleEvent samplePricing).baseAmount
      = (dailyRateFor samplePricing (deriveCategory
          (computeAge adultPartialNoDays.dateOfBirth sampleEvent.start_date)
          sampleEvent.adult_age_threshold sampleEvent.youth_age_threshold)).1 * 1 :=
  (numDays_defaults_to_one juneDate adultPartialNoDays sampleEvent samplePricing
    (by decide) (by decide) (by decide) (by decide)).1

/-- Folding the group subtotal accumulator equals the accumulator plus the
sum of the item amounts. -/
theorem foldl_amount_eq_sum (l : List PricingResult) (a : Rat) :
    l.foldl (fun sum item => sum + item.amount) a = a + (l.map PricingResult.amount).sum := by
  induction l generalizing a with
  | nil => simp
  | cons x xs ih =>
    simp only [List.foldl_cons, List.map_cons, List.sum_cons]
    rw [ih]
    ring

/-- C3.  The group aggregator prices every member at the base amount the
solo engine computes for it (individual surcharge stripped), sums exactly
those bases into the subtotal, applies the surcharge once — the matching
tier's amount, only when the subtotal is positive and a tier contains the
shared registration date (the first registrant's override, else the
clock), so in particular zero whenever every member's base is zero — and
returns grandTotal = subtotal + surcharge. -/
theorem group_pricing_single_surcharge (now : SimpleDate) (inputs : List PricingInput)
    (event : Event) (pricing : PricingConfig) :
    (∀ k : Nat, ((computeGroupPricing now inputs event pricing).items[k]?).map
        PricingResult.amount
      = (inputs[k]?).map (fun i => (computePricing now i event pricing).baseAmount))
    ∧ (∀ item ∈ (computeGroupPricing now inputs event pricing).items, item.surcharge = 0)
    ∧ (computeGroupPricing now inputs event pricing).subtotal
      = (inputs.map (fun i => (computePricing now i event pricing).baseAmount)).sum
    ∧ (computeGroupPricing now inputs event pricing).surcharge
      = (if 0 < (computeGroupPricing now inputs event pricing).subtotal then
          match findSurchargeTier (pricing.late_surcharge_tiers.getD [])
              ((inputs.head?.bind PricingInput.registrationDate).getD now) with
          | some t => t.amount
          | none => 0
        else 0)
    ∧ ((∀ i ∈ inputs, (computePricing now i event pricing).baseAmount = 0)
        → (computeGroupPricing now inputs event pricing).surcharge = 0)
    ∧ (computeGroupPricing now inputs event pricing).grandTotal
      = (computeGroupPricing now inputs event pricing).subtotal
        + (computeGroupPricing now inputs event pricing).surcharge := by
  have hsub : (computeGroupPricing now inputs event pricing).subtotal
      = (inputs.map (fun i => (computePricing now i event pricing).baseAmount)).sum := by
    simp only [computeGroupPricing]
    rw [foldl_amount_eq_sum, List.map_map]
    simp [stripSurcharge, Function.comp_def]
  refine ⟨?_, ?_, hsub, ?_, ?_, ?_⟩
  · intro k
    simp only [computeGroupPricing, List.getElem?_map]
    cases inputs[k]? with
    | none => rfl
    | some i => simp [stripSurcharge]
  · intro item hmem
    simp only [computeGroupPricing, List.mem_map] at hmem
    obtain ⟨i, _, rfl⟩ := hmem
    rfl
  · cases inputs with
    | nil => simp [computeGroupPricing]
    | cons a l => simp [computeGroupPricing]
  · intro hz
    have : (inputs.map (fun i => (computePricing now i event pricing).baseAmount)).sum = 0 :=
      List.sum_eq_zero (by
        intro x hx
        simp only [List.mem_map] at hx
        obtain ⟨i, hi, rfl⟩ := hx
        exact hz i hi)
    have hzero : (computeGroupPricing now inputs event pricing).subtotal = 0 := by
      rw [hsub, this]
    simp only [computeGroupPricing] at hzero ⊢
    rw [hzero]
    simp
  · rfl

/-- A stored solo registration created January 10, 2026, before the June
late-fee tier opens. -/
def januaryRegistration : RegistrationRow :=
  { id := "reg-1", group_id := none, event_id := "evt-1", date_of_birth := ⟨1990, 1, 1⟩,
    is_full_duration := true, is_staying_in_motel := none, num_days := none,
    computed_amount := 100, status := RegStatus.pending, confirmed_at := none,
    created_at := ⟨2026, 1, 10⟩ }

/-- C5 counterexample.  The recomputation input handleSoloPayment builds for
januaryRegistration when the checkout session is opened on June 15 carries
June 15 — the current server time — as its registration-date override, not
the stored creation time; as a consequence the June tier's 20 surcharge is
picked up, whereas pricing at the original registration time carries no
surcharge: the tier is not stable between registration and payment. -/
theorem session_recompute_not_original_time_cex :
    (soloRecomputeInput januaryRegistration juneDate).registrationDate
        ≠ some januaryRegistration.created_at
    ∧ (soloRecomputeInput januaryRegistration juneDate).registrationDate = some juneDate
    ∧ (computePricing juneDate (soloRecomputeInput januaryRegistration juneDate)
        sampleEvent samplePricing).surcharge = 20
    ∧ (computePricing januaryRegistration.created_at
        { soloRecomputeInput januaryRegistration juneDate with
          registrationDate := some januaryRegistration.created_at }
        sampleEvent samplePricing).surcharge = 0 := by
  refine ⟨by decide, rfl, ?_, ?_⟩ <;> decide

/-- C5 amended.  The session-initiation recomputation (solo and group) sets
the registration-date override to the current server time, so the engine
prices against the surcharge tier in effect at payment time — whatever
clock the engine itself would default to — and not against the tier of the
original registration time. -/
theorem session_recompute_uses_server_time (r : RegistrationRow)
    (regs : List RegistrationRow) (now clock : SimpleDate) (event : Event)
    (pricing : PricingConfig) :
    (soloRecomputeInput r now).registrationDate = some now
    ∧ (∀ i ∈ groupRecomputeInputs regs now, i.registrationDate = some now)
    ∧ computePricing clock (soloRecomputeInput r now) event pricing
      = computePricing now (soloRecomputeInput r now) event pricing := by
  refine ⟨rfl, ?_, ?_⟩
  · intro i hi
    simp only [groupRecomputeInputs, List.mem_map] at hi
    obtain ⟨x, _, rfl⟩ := hi
    rfl
  · simp [computePricing, applySurcharge, soloRecomputeInput]

/-- A group member already confirmed. -/
def confirmedMember : RegistrationRow :=
  { id := "reg-a", group_id := some "grp-1", event_id := "evt-1",
    date_of_birth := ⟨1990, 1, 1⟩, is_full_duration := true, is_staying_in_motel := none,
    num_days := none, computed_amount := 100, status := RegStatus.confirmed,
    confirmed_at := some ⟨2026, 5, 1⟩, created_at := ⟨2026, 4, 1⟩ }

/-- A sibling of the same group still pending. -/
def pendingMember : RegistrationRow :=
  { id := "reg-b", group_id := some "grp-1", event_id := "evt-1",
    date_of_birth := ⟨1992, 1, 1⟩, is_full_duration := true, is_staying_in_motel := none,
    num_days := none, computed_amount := 100, status := RegStatus.pending,
    confirmed_at := none, created_at := ⟨2026, 4, 1⟩ }

/-- C9.  The group session-initiation opening fetches only the pending
members of the group, so the subsequent some(status confirmed) check can
never fire: with one member confirmed and one pending the gate proceeds
toward checkout-session creation instead of rejecting with the 400
already-confirmed error, and no input at all reaches the
alreadyConfirmed outcome. -/
theorem group_gate_confirmed_unreachable :
    groupPaymentGate [confirmedMember, pendingMember] "grp-1"
      = GroupPaymentOutcome.proceed [pendingMember]
    ∧ ∀ (registrations : List RegistrationRow) (groupId : String),
        groupPaymentGate registrations groupId ≠ GroupPaymentOutcome.alreadyConfirmed := by
  refine ⟨by decide, ?_⟩
  intro registrations groupId
  simp only [groupPaymentGate]
  split
  · simp
  · split
    · rename_i hany
      exfalso
      rw [List.any_eq_true] at hany
      obtain ⟨r, hr, hc⟩ := hany
      rw [List.mem_filter] at hr
      have hp : r.group_id = some groupId ∧ r.status = RegStatus.pending :=
        of_decide_eq_true hr.2
      have hcc : r.status = RegStatus.confirmed := of_decide_eq_true hc
      rw [hp.2] at hcc
      exact RegStatus.noConfusion hcc
    · simp

/-- C6.  The webhook's verification stage: a missing signature header is a
400 with no state touched; with no configured secret and the compound
local-development opt-in not fully satisfied, every signed request is a
500 with no state touched; with no secret but both opt-in conditions
(ALLOW_INSECURE_WEBHOOKS true AND NODE_ENV development) the event
proceeds to processing with verification bypassed; with a configured
secret, a signature that fails verification is a 400 with no state
touched. -/
theorem webhook_signature_gate (env : WebhookEnv) (valid : Bool) (e : StripeEvent)
    (db : DB) (now : SimpleDate) :
    (handleWebhook env none valid e db now
        = ⟨db, WebhookResponse.errNoSignature, 0⟩
      ∧ WebhookResponse.errNoSignature.statusCode = 400)
    ∧ (∀ s : String, env.stripe_webhook_secret = none →
        ¬(env.allow_insecure_webhooks = some "true" ∧ env.node_env = "development") →
        handleWebhook env (some s) valid e db now = ⟨db, WebhookResponse.errNoSecret, 0⟩
          ∧ WebhookResponse.errNoSecret.statusCode = 500)
    ∧ (∀ s : String, env.stripe_webhook_secret = none →
        env.allow_insecure_webhooks = some "true" → env.node_env = "development" →
        handleWebhook env (some s) valid e db now = processEvent db e now)
    ∧ (∀ (s sec : String), env.stripe_webhook_secret = some sec → valid = false →
        handleWebhook env (some s) valid e db now
            = ⟨db, WebhookResponse.errInvalidSignature, 0⟩
          ∧ WebhookResponse.errInvalidSignature.statusCode = 400) := by
  refine ⟨⟨rfl, rfl⟩, ?_, ?_, ?_⟩
  · intro s hsec hno
    have hdev : isLocalDev env = false := by
      cases hd : isLocalDev env with
      | false => rfl
      | true =>
        simp only [isLocalDev, Bool.and_eq_true, beq_iff_eq] at hd
        exact absurd ⟨hd.2, hd.1⟩ hno
    exact ⟨by simp [handleWebhook, hsec, hdev], rfl⟩
  · intro s hsec h1 h2
    have hdev : isLocalDev env = true := by
      simp [isLocalDev, h1, h2]
    simp [handleWebhook, hsec, hdev]
  · intro s sec hsec hvalid
    exact ⟨by simp [handleWebhook, hsec, hvalid], rfl⟩

/-- A completed payment row is a fixed point of the guarded completed
update. -/
theorem markPaymentCompleted_preserves (ps : List PaymentRow) (sid eid pi : String)
    (now : SimpleDate) (k : Nat) (p : PaymentRow) (hk : ps[k]? = some p)
    (hp : p.status = PayStatus.completed) :
    (markPaymentCompleted ps sid eid pi now)[k]? = some p := by
  unfold markPaymentCompleted
  rw [List.getElem?_map, hk]
  simp [hp]

/-- A completed payment row is a fixed point of the guarded expired
update. -/
theorem markPaymentExpired_preserves (ps : List PaymentRow) (sid eid : String)
    (now : SimpleDate) (k : Nat) (p : PaymentRow) (hk : ps[k]? = some p)
    (hp : p.status = PayStatus.completed) :
    (markPaymentExpired ps sid eid now)[k]? = some p := by
  unfold markPaymentExpired
  rw [List.getElem?_map, hk]
  simp [hp]

/-- A confirmed registration is a fixed point of the guarded solo
confirmation. -/
theorem confirmRegistrationById_preserves (rs : List RegistrationRow) (rid : String)
    (now : SimpleDate) (k : Nat) (r : RegistrationRow) (hk : rs[k]? = some r)
    (hr : r.status = RegStatus.confirmed) :
    (confirmRegistrationById rs rid now)[k]? = some r := by
  unfold confirmRegistrationById
  rw [List.getElem?_map, hk]
  simp [hr]

/-- A confirmed registration is a fixed point of the guarded group
confirmation. -/
theorem confirmRegistrationsByGroup_preserves (rs : List RegistrationRow) (gid : String)
    (now : SimpleDate) (k : Nat) (r : RegistrationRow) (hk : rs[k]? = some r)
    (hr : r.status = RegStatus.confirmed) :
    (confirmRegistrationsByGroup rs gid now)[k]? = some r := by
  unfold confirmRegistrationsByGroup
  rw [List.getElem?_map, hk]
  simp [hr]

/-- C1.  Completed payments and confirmed registrations are terminal: in
any database state, processing any further checkout.session.completed or
checkout.session.expired event leaves every payment row whose status is
completed and every registration whose status is confirmed exactly as
they were (every status-mutating write is guarded by status = pending),
and the delivery is still acknowledged with 200 — a guarded update that
matches zero rows is a successful no-op, not an error. -/
theorem webhook_terminal_states (db : DB) (e : StripeEvent) (now : SimpleDate)
    (_h : (∃ sid rid gid pi, e.data = StripeEventData.checkoutCompleted sid rid gid pi)
      ∨ (∃ sid, e.data = StripeEventData.checkoutExpired sid)) :
    (∀ (k : Nat) (p : PaymentRow), db.payments[k]? = some p →
        p.status = PayStatus.completed → (processEvent db e now).db.payments[k]? = some p)
    ∧ (∀ (k : Nat) (r : RegistrationRow), db.registrations[k]? = some r →
        r.status = RegStatus.confirmed → (processEvent db e now).db.registrations[k]? = some r)
    ∧ (processEvent db e now).response.statusCode = 200 := by
  clear _h
  obtain ⟨eid, edata⟩ := e
  simp only [processEvent]
  split
  · exact ⟨fun k p hk _ => hk, fun k r hk _ => hk, rfl⟩
  · cases edata with
    | checkoutCompleted sid rid? gid? pi =>
      cases rid? with
      | none => exact ⟨fun k p hk _ => hk, fun k r hk _ => hk, rfl⟩
      | some rid =>
        cases hfind : db.payments.find? (fun p => decide (p.stripe_session_id = sid)) with
        | none =>
          simp only [hfind]
          exact ⟨fun k p hk _ => hk, fun k r hk _ => hk, rfl⟩
        | some payment =>
          simp only [hfind]
          split
          · exact ⟨fun k p hk _ => hk, fun k r hk _ => hk, rfl⟩
          · split
            · exact ⟨fun k p hk hp => markPaymentCompleted_preserves _ _ _ _ _ _ _ hk hp,
                fun k r hk _ => hk, rfl⟩
            · cases gid? with
              | some gid =>
                exact ⟨fun k p hk hp => markPaymentCompleted_preserves _ _ _ _ _ _ _ hk hp,
                  fun k r hk hr => confirmRegistrationsByGroup_preserves _ _ _ _ _ hk hr, rfl⟩
              | none =>
                exact ⟨fun k p hk hp => markPaymentCompleted_preserves _ _ _ _ _ _ _ hk hp,
                  fun k r hk hr => confirmRegistrationById_preserves _ _ _ _ _ hk hr, rfl⟩
    | checkoutExpired sid =>
      exact ⟨fun k p hk hp => markPaymentExpired_preserves _ _ _ _ _ _ hk hp,
        fun k r hk _ => hk, rfl⟩
    | otherEvent t => exact ⟨fun k p hk _ => hk, fun k r hk _ => hk, rfl⟩

/-- C2.  Processing the same provider event id twice is idempotent.  In any
state where the event id is already recorded on a payment row, delivering
an event with that id writes nothing and is acknowledged as a duplicate
({received: true, duplicate: true}).  Consequently, delivering an
identical checkout.session.completed event twice (starting from a fresh
event id and a pending payment row for the session) transitions the
payment exactly once — the first delivery completes the row and stamps
the event id onto it, and the second delivery leaves the database
untouched — with at most one outbound notification attempt in total. -/
theorem webhook_event_id_idempotent (db : DB) (e : StripeEvent) (now1 now2 : SimpleDate)
    (sessionId registrationId paymentIntent : String) (groupId? : Option String)
    (p0 : PaymentRow)
    (hdata : e.data = StripeEventData.checkoutCompleted sessionId (some registrationId)
        groupId? paymentIntent)
    (hfind : db.payments.find? (fun p => decide (p.stripe_session_id = sessionId)) = some p0)
    (hpend : p0.status = PayStatus.pending)
    (hfresh : eventAlreadyProcessed db e.id = false) :
    (∀ db0 : DB, eventAlreadyProcessed db0 e.id = true →
        processEvent db0 e now2 = ⟨db0, WebhookResponse.received true, 0⟩)
    ∧ processEvent (processEvent db e now1).db e now2
        = ⟨(processEvent db e now1).db, WebhookResponse.received true, 0⟩
    ∧ (processEvent db e now1).emailsAttempted ≤ 1
    ∧ ∃ q ∈ (processEvent db e now1).db.payments,
        q.stripe_session_id = sessionId ∧ q.status = PayStatus.completed
          ∧ q.stripe_event_id = some e.id := by
  obtain ⟨eid, edata⟩ := e
  simp only at hdata hfresh ⊢
  subst hdata
  have hgate : ∀ db0 : DB,
      eventAlreadyProcessed db0 eid = true →
      processEvent db0 ⟨eid, StripeEventData.checkoutCompleted sessionId (some registrationId)
        groupId? paymentIntent⟩ now2 = ⟨db0, WebhookResponse.received true, 0⟩ := by
    intro db0 hdup
    simp [processEvent, hdup]
  have hsid : p0.stripe_session_id = sessionId := by
    have h1 := List.find?_some hfind
    exact of_decide_eq_true h1
  have hmem : p0 ∈ db.payments := List.mem_of_find?_eq_some hfind
  have hcnt : ¬ pendingMatchCount db.payments sessionId = 0 := by
    have hmf : p0 ∈ db.payments.filter
        (fun p => decide (p.stripe_session_id = sessionId ∧ p.status = PayStatus.pending)) :=
      List.mem_filter.mpr ⟨hmem, decide_eq_true ⟨hsid, hpend⟩⟩
    exact Nat.pos_iff_ne_zero.mp (List.length_pos.mpr (List.ne_nil_of_mem hmf))
  have hout : (processEvent db ⟨eid, StripeEventData.checkoutCompleted sessionId
        (some registrationId) groupId? paymentIntent⟩ now1).db.payments
        = markPaymentCompleted db.payments sessionId eid paymentIntent now1
      ∧ (processEvent db ⟨eid, StripeEventData.checkoutCompleted sessionId
        (some registrationId) groupId? paymentIntent⟩ now1).emailsAttempted ≤ 1 := by
    simp only [processEvent, hfresh, hfind, hpend, hcnt]
    cases groupId? with
    | some gid =>
      simp only [Bool.false_eq_true, if_false, reduceCtorEq, if_neg hcnt]
      constructor
      · trivial
      · split <;> simp
    | none =>
      simp only [Bool.false_eq_true, if_false, reduceCtorEq, if_neg hcnt]
      constructor
      · trivial
      · split <;> simp
  have hq : ∃ q ∈ markPaymentCompleted db.payments sessionId eid paymentIntent now1,
      q.stripe_session_id = sessionId ∧ q.status = PayStatus.completed
        ∧ q.stripe_event_id = some eid := by
    refine ⟨{ p0 with
        stripe_payment_intent_id := some paymentIntent
        stripe_event_id := some eid
        status := PayStatus.completed
        webhook_received_at := some now1 }, ?_, hsid, rfl, rfl⟩
    unfold markPaymentCompleted
    exact List.mem_map.mpr ⟨p0, hmem, by rw [if_pos ⟨hsid, hpend⟩]⟩
  have hdup1 : eventAlreadyProcessed (processEvent db ⟨eid,
      StripeEventData.checkoutCompleted sessionId (some registrationId) groupId?
        paymentIntent⟩ now1).db eid = true := by
    unfold eventAlreadyProcessed
    rw [hout.1]
    obtain ⟨q, hqmem, _, _, hq3⟩ := hq
    exact List.any_eq_true.mpr ⟨q, hqmem, decide_eq_true hq3⟩
  refine ⟨hgate, hgate _ hdup1, hout.2, ?_⟩
  rw [hout.1]
  exact hq

/-- A payment row already completed (with its confirming event id). -/
def completedPaymentRow : PaymentRow :=
  { id := "pay-1", registration_id := "reg-a", stripe_session_id := "cs-1",
    stripe_payment_intent_id := some "pi-1", stripe_event_id := some "evt-0",
    amount := 100, status := PayStatus.completed, webhook_received_at := some ⟨2026, 6, 20⟩ }

/-- A database whose payment is completed and whose registration is
confirmed. -/
def terminalDb : DB :=
  { payments := [completedPaymentRow], registrations := [confirmedMember] }

/-- A later expiry event for the already-completed session. -/
def lateExpiredEvt : StripeEvent :=
  { id := "evt-9", data := StripeEventData.checkoutExpired "cs-1" }

/-- Witness for C1: processing a later expiry event for the completed
session leaves the completed payment row exactly as it was. -/
theorem webhook_terminal_states_witness :
    (processEvent terminalDb lateExpiredEvt ⟨2026, 6, 21⟩).db.payments[0]?
      = some completedPaymentRow :=
  (webhook_terminal_states terminalDb lateExpiredEvt ⟨2026, 6, 21⟩
    (Or.inr ⟨"cs-1", rfl⟩)).1 0 completedPaymentRow rfl rfl

/-- A pending payment row awaiting its session's completion event. -/
def pendingPaymentRow : PaymentRow :=
  { id := "pay-2", registration_id := "reg-b", stripe_session_id := "cs-2",
    stripe_payment_intent_id := none, stripe_event_id := none,
    amount := 120, status := PayStatus.pending, webhook_received_at := none }

/-- A database with one pending payment and its pending registration. -/
def freshDb : DB :=
  { payments := [pendingPaymentRow], registrations := [pendingMember] }

/-- The completion event for the pending session, delivered twice. -/
def completedEvt : StripeEvent :=
  { id := "evt-1",
    data := StripeEventData.checkoutCompleted "cs-2" (some "reg-b") none "pi-2" }

/-- Witness for C2: delivering the same completion event a second time
leaves the database of the first delivery untouched and acknowledges the
duplicate. -/
theorem webhook_event_id_idempotent_witness :
    processEvent (processEvent freshDb completedEvt ⟨2026, 6, 21⟩).db completedEvt ⟨2026, 6, 22⟩
      = ⟨(processEvent freshDb completedEvt ⟨2026, 6, 21⟩).db,
          WebhookResponse.received true, 0⟩ :=
  (webhook_event_id_idempotent freshDb completedEvt ⟨2026, 6, 21⟩ ⟨2026, 6, 22⟩
    "cs-2" "reg-b" "pi-2" none pendingPaymentRow rfl (by decide) rfl (by decide)).2.1

end FellowFlow
